import Mathlib

/-!
Verification development for the force-directed collage layout engine in
`src/app/routes/home/partials/FullScreenCarousel.tsx` (the `CollageMonde`
component and its helpers).

The embedding is shallow: the relevant TypeScript constants and pure helper
functions are transcribed as Lean definitions over `ℚ` (JavaScript numbers
carry no rounding in the small arithmetic used here), DOM side effects are
modelled as explicit state records, the d3 simulation handle is a record of
the mutable fields the code touches (`alpha`, the collision-force
configuration, the running flag), and `Math.random()` draws are passed in
explicitly as a stream of rationals in `[0, 1)`.  Transcendental primitives
(`Math.cos`, `Math.sin`, `Math.PI`) are abstracted as function/value
parameters, since the claims about cluster geometry are symbolic in them.
-/

namespace Echos

/-- Source constant `ANIMATION_DURATION = 500`. -/
def ANIMATION_DURATION : ℚ := 500

/-- Source constant `ENTRANCE_ANIMATION_DELAY = 100` (per-index stagger). -/
def ENTRANCE_ANIMATION_DELAY : ℕ := 100

/-- Source constant `ENTRANCE_ANIMATION_DURATION = 800`. -/
def ENTRANCE_ANIMATION_DURATION : ℚ := 800

/-- Source constant `OPACITY_ANIMATION_DURATION = 300`. -/
def OPACITY_ANIMATION_DURATION : ℚ := 300

/-- Source constant `SUBTITLE_DELAY_OFFSET = 200`. -/
def SUBTITLE_DELAY_OFFSET : ℚ := 200

/-- The three values of the `FilterType` union (`"tous" | "album" | "artist"`). -/
inductive FilterType where
  | tous
  | album
  | artist
deriving DecidableEq, Repr

/-- Node kinds: the `type` field of the `Node` interface. -/
inductive NodeType where
  | album
  | artist
  | title
deriving DecidableEq, Repr

/-- `SIMULATION_CONFIG.nodeSize`. -/
structure NodeSizeConfig where
  album : ℚ
  artist : ℚ
  title : ℚ
  hover : ℚ
  maxDelta : ℚ
  minAlbum : ℚ
  minArtist : ℚ
  holePadding : ℚ
  clipPadding : ℚ
deriving DecidableEq, Repr

/-- `SIMULATION_CONFIG.forces`. -/
structure ForcesConfig where
  charge : ℚ
  collide : ℚ
  center : ℚ
  x : ℚ
  y : ℚ
deriving DecidableEq, Repr

/-- `SIMULATION_CONFIG.centerHole`. -/
structure CenterHoleConfig where
  radius : ℚ
  strength : ℚ
deriving DecidableEq, Repr

/-- `SIMULATION_CONFIG.container`. -/
structure ContainerConfig where
  width : ℚ
  height : ℚ
deriving DecidableEq, Repr

/-- `SIMULATION_CONFIG.performance`. -/
structure PerformanceConfig where
  alphaDecay : ℚ
  velocityDecay : ℚ
  alphaTarget : ℚ
  collisionIterations : ℕ
  restartAlpha : ℚ
deriving DecidableEq, Repr

/-- The full `SIMULATION_CONFIG` object. -/
structure SimulationConfig where
  nodeSize : NodeSizeConfig
  forces : ForcesConfig
  centerHole : CenterHoleConfig
  container : ContainerConfig
  performance : PerformanceConfig
deriving DecidableEq, Repr

/-- The literal `SIMULATION_CONFIG` constant from the source. -/
def SIMULATION_CONFIG : SimulationConfig :=
  { nodeSize :=
      { album := 50
        artist := 60
        title := 200
        hover := 70
        maxDelta := 20
        minAlbum := 20
        minArtist := 25
        holePadding := 2
        clipPadding := 2 }
    forces :=
      { charge := 0
        collide := 1
        center := 5 / 1000
        x := 2 / 1000
        y := 2 / 100 }
    centerHole :=
      { radius := 0
        strength := 2 / 100 }
    container :=
      { width := 1280
        height := 960 }
    performance :=
      { alphaDecay := 228 / 10000
        velocityDecay := 1 / 10
        alphaTarget := 3 / 10
        collisionIterations := 3
        restartAlpha := 1 / 10 } }

/--
The `Node` interface (`extends d3Force.SimulationNodeDatum`).  Optional
fields of the TypeScript interface, and the d3-owned simulation fields
`x`, `y`, `vx`, `vy`, `fx`, `fy` that are absent until d3 seeds them, are
`Option ℚ`.  `originalR` is the lazily captured resting radius.
-/
structure Node where
  id : String
  src : String
  alt : String
  type : NodeType
  groupName : Option String := none
  groupId : Option String := none
  albumId : Option String := none
  r : ℚ
  originalR : Option ℚ := none
  group : String
  x : Option ℚ := none
  y : Option ℚ := none
  vx : Option ℚ := none
  vy : Option ℚ := none
  fx : Option ℚ := none
  fy : Option ℚ := none
deriving DecidableEq, Repr

/-- An album record from the catalog, restricted to the fields the core reads. -/
structure Album where
  id : ℕ
  src : String
  alt : String
deriving DecidableEq, Repr

/-- A group record from the catalog, restricted to the fields the core reads. -/
structure Group where
  id : String
  name : String
  albums : List Album
deriving DecidableEq, Repr

/-- Source helper `createTitleNode`. -/
def createTitleNode : Node :=
  { id := "title-center"
    src := ""
    alt := "Titre central"
    type := .title
    groupName := some "Nous ne sommes qu\x27un"
    r := SIMULATION_CONFIG.nodeSize.title
    group := "center"
    x := some (SIMULATION_CONFIG.container.width / 2)
    y := some (SIMULATION_CONFIG.container.height / 2)
    fx := some (SIMULATION_CONFIG.container.width / 2)
    fy := some (SIMULATION_CONFIG.container.height / 2) }

/--
Source helper `createAlbumNode`.  `u` is the `Math.random()` draw in
`[0, 1)`, so `randomDelta = (u - 0.5) * 2 * maxDelta`.
-/
def createAlbumNode (album : Album) (group : Group) (u : ℚ) : Node :=
  let baseSize := SIMULATION_CONFIG.nodeSize.album
  let randomDelta := (u - 1 / 2) * 2 * SIMULATION_CONFIG.nodeSize.maxDelta
  { id := "album-" ++ toString album.id
    src := album.src
    alt := album.alt
    type := .album
    groupName := some group.name
    groupId := some group.id
    albumId := some (toString album.id)
    r := max SIMULATION_CONFIG.nodeSize.minAlbum (baseSize + randomDelta)
    group := group.id }

/--
Source helper `createArtistNode`.  It dereferences `group.albums[0].src`,
which throws on an empty album list; that failure is modelled as `none`.
`u` is the `Math.random()` draw in `[0, 1)`.
-/
def createArtistNode (group : Group) (u : ℚ) : Option Node :=
  match group.albums with
  | [] => none
  | a0 :: _ =>
    let baseSize := SIMULATION_CONFIG.nodeSize.artist
    let randomDelta := (u - 1 / 2) * 2 * SIMULATION_CONFIG.nodeSize.maxDelta
    some
      { id := "artist-" ++ group.id
        src := a0.src
        alt := group.name ++ " artist photo"
        type := .artist
        groupName := some group.name
        groupId := some group.id
        r := max SIMULATION_CONFIG.nodeSize.minArtist (baseSize + randomDelta)
        group := group.id }

/--
The album nodes one group contributes inside the `data` `useMemo`:
`if (filter === "tous" || filter === "album") group.albums.forEach(...)`.
`us` is the stream of `Math.random()` draws and `k` the index of the next
unconsumed draw, mirroring JavaScript call order.
-/
def groupAlbumNodesGo (us : ℕ → ℚ) (g : Group) : List Album → ℕ → List Node
  | [], _ => []
  | a :: as, k => createAlbumNode a g (us k) :: groupAlbumNodesGo us g as (k + 1)

/--
The album nodes one group contributes inside the `data` `useMemo`:
`if (filter === "tous" || filter === "album") group.albums.forEach(...)`.
-/
def groupAlbumNodes (f : FilterType) (us : ℕ → ℚ) (g : Group) (k : ℕ) : List Node :=
  if f = .tous ∨ f = .album then groupAlbumNodesGo us g g.albums k else []

/--
All nodes one group contributes inside the `data` `useMemo`: its album nodes
followed by its artist representative when
`(filter === "tous" || filter === "artist") && group.albums.length > 0`.
Returns the nodes together with the next unconsumed random index; `none`
models a crash of `createArtistNode` (unreachable under the guard).
-/
def groupNodes (f : FilterType) (us : ℕ → ℚ) (g : Group) (k : ℕ) :
    Option (List Node × ℕ) :=
  let ans := groupAlbumNodes f us g k
  let k1 := k + ans.length
  if (f = .tous ∨ f = .artist) ∧ 0 < g.albums.length then
    match createArtistNode g (us k1) with
    | none => none
    | some n => some (ans ++ [n], k1 + 1)
  else some (ans, k1)

/-- The `groups.forEach` loop of the `data` `useMemo`, threading the random
index through the groups. -/
def buildDataGo (f : FilterType) (us : ℕ → ℚ) : List Group → ℕ → Option (List Node)
  | [], _ => some []
  | g :: gs, k =>
    match groupNodes f us g k with
    | none => none
    | some (ns, kn) => (buildDataGo f us gs kn).map (ns ++ ·)

/--
The `data` `useMemo` of `CollageMonde`: one title node pushed first, then
each group's nodes under the active filter.
-/
def buildData (f : FilterType) (us : ℕ → ℚ) (groups : List Group) :
    Option (List Node) :=
  (buildDataGo f us groups 0).map (createTitleNode :: ·)

/-- A 2D point, the value stored in the clusters `Map`. -/
structure Pt where
  x : ℚ
  y : ℚ
deriving DecidableEq, Repr

/--
JavaScript `Map.set` on a map represented as an insertion-ordered
association list: overwrite in place when the key is present, append
otherwise.
-/
def mapSet (m : List (String × Pt)) (key : String) (v : Pt) :
    List (String × Pt) :=
  if m.any (fun p => p.1 = key) then
    m.map (fun p => if p.1 = key then (key, v) else p)
  else m ++ [(key, v)]

/--
The body of the `groups.forEach((group, i) => ...)` loop of `createClusters`,
with `Math.cos`, `Math.sin` and `Math.PI` abstracted as `cosF`, `sinF`, `pi`.
-/
def createClustersGo (cosF sinF : ℚ → ℚ) (pi : ℚ) (numGroups : ℕ)
    (width height : ℚ) : List Group → ℕ → List (String × Pt) → List (String × Pt)
  | [], _, m => m
  | g :: gs, i, m =>
    let angle := ((i : ℚ) / (numGroups : ℚ)) * 2 * pi
    let radius := min width height / 4
    createClustersGo cosF sinF pi numGroups width height gs (i + 1)
      (mapSet m g.id
        ⟨width / 2 + cosF angle * radius, height / 2 + sinF angle * radius⟩)

/-- Source helper `createClusters(groups, width, height)`. -/
def createClusters (cosF sinF : ℚ → ℚ) (pi : ℚ) (groups : List Group)
    (width height : ℚ) : List (String × Pt) :=
  createClustersGo cosF sinF pi groups.length width height groups 0 []

/-- The fixed 2D point assigned to the group at index `i` of `n` groups. -/
def clusterTarget (cosF sinF : ℚ → ℚ) (pi : ℚ) (n : ℕ) (width height : ℚ)
    (i : ℕ) : Pt :=
  ⟨width / 2 + cosF (((i : ℚ) / (n : ℚ)) * 2 * pi) * (min width height / 4),
   height / 2 + sinF (((i : ℚ) / (n : ℚ)) * 2 * pi) * (min width height / 4)⟩

/-- The expected cluster list: one entry per group, in order, keyed by the
group id, valued at that index's `clusterTarget`. -/
def clusterList (cosF sinF : ℚ → ℚ) (pi : ℚ) (n : ℕ) (width height : ℚ) :
    List Group → ℕ → List (String × Pt)
  | [], _ => []
  | g :: gs, i =>
    (g.id, clusterTarget cosF sinF pi n width height i)
      :: clusterList cosF sinF pi n width height gs (i + 1)

/--
The configuration of the `forceCollide` force: its radius accessor (queried
per node at force-application time), its strength, and its iteration count.
-/
structure CollideConfig where
  radiusFn : Node → ℚ
  strength : ℚ
  iterations : ℕ

/--
The mutable fields of the d3 simulation handle that this code reads or
writes: the global alpha, the alpha target, the velocity decay, whether the
stepper is running, and the currently installed collision force.
-/
structure SimState where
  alpha : ℚ
  alphaTarget : ℚ
  velocityDecay : ℚ
  running : Bool
  collide : CollideConfig

/--
Source helper `updateCollisionForce`: replaces the `"collide"` force with a
fresh `forceCollide` whose radius accessor reads the node's current `r` plus
`nodeSize.holePadding`.
-/
def updateCollisionForce (sim : SimState) : SimState :=
  { sim with
      collide :=
        { radiusFn := fun node => node.r + SIMULATION_CONFIG.nodeSize.holePadding
          strength := SIMULATION_CONFIG.forces.collide
          iterations := SIMULATION_CONFIG.performance.collisionIterations } }

/--
Source helper `restartSimulationIfNeeded`: if `alpha` is below
`performance.restartAlpha`, set it to `restartAlpha` and restart the stepper.
-/
def restartSimulationIfNeeded (sim : SimState) : SimState :=
  if sim.alpha < SIMULATION_CONFIG.performance.restartAlpha then
    { sim with alpha := SIMULATION_CONFIG.performance.restartAlpha, running := true }
  else sim

/-- d3 `interpolate(a, b)` on numbers, evaluated at `t`: `a + (b - a) * t`. -/
def interpolate (a b t : ℚ) : ℚ := a + (b - a) * t

/--
One frame of the `"radius"` tween installed by both `handleNodeHover` and
`handleNodeLeave`: writes `d.r = tween(t)`, then runs
`updateCollisionForce(simulation)` and `restartSimulationIfNeeded(simulation)`.
-/
def radiusTweenFrame (start target t : ℚ) (ds : Node × SimState) :
    Node × SimState :=
  let d := { ds.1 with r := interpolate start target t }
  let sim := restartSimulationIfNeeded (updateCollisionForce ds.2)
  (d, sim)

/-- JavaScript truthiness of the optional numeric field `originalR`
(`undefined` and `0` are falsy). -/
def optTruthy (o : Option ℚ) : Bool :=
  match o with
  | none => false
  | some v => v != 0

/-- A pending radius animation: the interpolation endpoints and duration the
handler installs (frames are applied by `radiusTweenFrame`). -/
structure RadiusAnim where
  start : ℚ
  target : ℚ
  duration : ℚ
deriving DecidableEq, Repr

/--
Source handler `handleNodeHover`, up to the installation of the tween: it
lazily captures `originalR` (`if (!d.originalR) d.originalR = d.r`) and
creates `interpolate(d.r, nodeSize.hover)` over `ANIMATION_DURATION / 2`.
Returns the updated node datum and the installed animation.
-/
def handleNodeHover (d : Node) : Node × RadiusAnim :=
  let targetSize := SIMULATION_CONFIG.nodeSize.hover
  let d1 := if optTruthy d.originalR then d else { d with originalR := some d.r }
  (d1, { start := d1.r, target := targetSize, duration := ANIMATION_DURATION / 2 })

/--
Source handler `handleNodeLeave`, up to the installation of the tween:
`targetSize = d.originalR || (d.type === "album" ? nodeSize.album :
nodeSize.artist)`, then `interpolate(d.r, targetSize)` over
`ANIMATION_DURATION / 2`.  The node datum is not modified by the handler.
-/
def handleNodeLeave (d : Node) : Node × RadiusAnim :=
  let targetSize :=
    if optTruthy d.originalR then d.originalR.getD 0
    else if d.type = .album then SIMULATION_CONFIG.nodeSize.album
    else SIMULATION_CONFIG.nodeSize.artist
  (d, { start := d.r, target := targetSize, duration := ANIMATION_DURATION / 2 })

/-- The image box attributes (`x`, `y`, `width`, `height`) of a node's image
element. -/
structure ImgBox where
  x : ℚ
  y : ℚ
  w : ℚ
  h : ℚ
deriving DecidableEq, Repr

/--
The rendered attributes of one node's SVG subtree that `updateVisualsOnTick`
writes: the group transform, the radius of the outer/background circle, the
radius of the album hole circle (albums only), the image box (absent on the
title node), and the clip-path circle radius.
-/
structure Visual where
  transform : Option ℚ × Option ℚ
  outerR : ℚ
  holeR : Option ℚ
  img : Option ImgBox
  clipR : ℚ
deriving DecidableEq, Repr

/--
The attributes `updateVisualsOnTick` computes for the node `d`: transform
from `d.x`/`d.y`; circles classed `outer` (and the unclassed title circle)
get `d.r`, circles classed `hole` (present on album subtrees only) get
`nodeSize.holePadding`; images (absent on the title subtree) get the box of
half-width `d.r - clipPadding`; the clip circle keyed by `d.id` gets
`d.r - clipPadding`.
-/
def projectNode (d : Node) : Visual :=
  let imageSize := d.r - SIMULATION_CONFIG.nodeSize.clipPadding
  { transform := (d.x, d.y)
    outerR := d.r
    holeR := if d.type = .album then some SIMULATION_CONFIG.nodeSize.holePadding else none
    img :=
      if d.type = .title then none
      else some { x := -imageSize, y := -imageSize, w := imageSize * 2, h := imageSize * 2 }
    clipR := d.r - SIMULATION_CONFIG.nodeSize.clipPadding }

/--
Source helper `updateVisualsOnTick`: overwrites every rendered attribute of
every node subtree from the node data alone; the previous DOM attribute
state `dom` is never read.
-/
def updateVisualsOnTick (dom : List Visual) (data : List Node) : List Visual :=
  let _ := dom
  data.map projectNode

/--
The end-state targets scheduled by `animateNodeEntrance` for one node: the
per-node stagger delay, the opacity target, the circle radius targets, the
image box target, the clip radius target, and (title node only) the two
font-size targets in rem.  These are all d3 transitions on rendered
attributes; no field of the node datum appears on the left of an assignment.
-/
structure EntranceTargets where
  delay : ℕ
  opacity : ℚ
  outerR : ℚ
  holeR : Option ℚ
  img : Option ImgBox
  clipR : ℚ
  titleMainFontRem : Option ℚ
  titleSubFontRem : Option ℚ
deriving DecidableEq, Repr

/--
Source helper `animateNodeEntrance(node, d, i, defs)`: schedules the staggered
reveal for the node at creation index `i` and returns the node datum
untouched (the source function only issues DOM transitions).  The modelled
pair is (datum after the call, scheduled end-state targets).
-/
def animateNodeEntrance (d : Node) (i : ℕ) : Node × EntranceTargets :=
  let delay := i * ENTRANCE_ANIMATION_DELAY
  let imageSize := d.r - SIMULATION_CONFIG.nodeSize.clipPadding
  (d,
   { delay := delay
     opacity := 1
     outerR := d.r
     holeR := if d.type = .album then some SIMULATION_CONFIG.nodeSize.holePadding else none
     img :=
       if d.type = .title then none
       else some { x := -imageSize, y := -imageSize, w := imageSize * 2, h := imageSize * 2 }
     clipR := imageSize
     titleMainFontRem := if d.type = .title then some 3 else none
     titleSubFontRem := if d.type = .title then some 2 else none })

/-- The result of the `useEffect` simulation setup: the simulation handle,
the cluster targets, and the node list handed to `forceSimulation`. -/
structure SimSetup where
  sim : SimState
  clusters : List (String × Pt)
  nodes : List Node

/--
The `useEffect` body of `CollageMonde` up to force installation: computes
`createClusters(groups, width, height)` from the unfiltered `groups` (not
from the filtered `data`), and builds the simulation with
`alphaTarget(0.3)`, `velocityDecay(0.1)` and the `"collide"` force
`forceCollide().radius(d => d.r + holePadding).strength(forces.collide)
.iterations(performance.collisionIterations)`.  A fresh d3 simulation starts
running with `alpha = 1`.
-/
def initSimulation (cosF sinF : ℚ → ℚ) (pi : ℚ) (groups : List Group)
    (data : List Node) : SimSetup :=
  let width := SIMULATION_CONFIG.container.width
  let height := SIMULATION_CONFIG.container.height
  let clusters := createClusters cosF sinF pi groups width height
  { sim :=
      { alpha := 1
        alphaTarget := SIMULATION_CONFIG.performance.alphaTarget
        velocityDecay := SIMULATION_CONFIG.performance.velocityDecay
        running := true
        collide :=
          { radiusFn := fun d => d.r + SIMULATION_CONFIG.nodeSize.holePadding
            strength := SIMULATION_CONFIG.forces.collide
            iterations := SIMULATION_CONFIG.performance.collisionIterations } }
    clusters := clusters
    nodes := data }

/-- Number of nodes of kind `ty` in a node list. -/
def countType (ty : NodeType) (l : List Node) : ℕ :=
  l.countP (fun n => decide (n.type = ty))

/-- Number of album nodes the `data` `useMemo` emits for `groups` under `f`. -/
def albumCount (f : FilterType) (groups : List Group) : ℕ :=
  if f = .tous ∨ f = .album then (groups.map (fun g => g.albums.length)).sum else 0

/-- Number of artist nodes the `data` `useMemo` emits for `groups` under `f`:
one per group with at least one album. -/
def artistCount (f : FilterType) (groups : List Group) : ℕ :=
  if f = .tous ∨ f = .artist then
    groups.countP (fun g => decide (0 < g.albums.length))
  else 0

/-- The concrete scenario catalog: group `A` with two albums, group `B` with
one album. -/
def scenarioGroups : List Group :=
  [ { id := "A", name := "A", albums := [⟨1, "a1", "a1"⟩, ⟨2, "a2", "a2"⟩] }
  , { id := "B", name := "B", albums := [⟨3, "a3", "a3"⟩] } ]

/-- A constant `Math.random()` stream used for concrete evaluations. -/
def usHalf : ℕ → ℚ := fun _ => 1 / 2

/-- A concrete catalog album used for concrete evaluations. -/
def sampleAlbum : Album := ⟨1, "src1", "alt1"⟩

/-- A concrete catalog group used for concrete evaluations. -/
def sampleGroup : Group := { id := "G", name := "G", albums := [sampleAlbum] }

/-- A concrete never-hovered album node used for concrete evaluations. -/
def sampleNode : Node :=
  { id := "album-1", src := "src1", alt := "alt1", type := .album
    r := 37, group := "G" }

/-- A concrete collision-force configuration used for concrete evaluations. -/
def sampleCollide : CollideConfig :=
  { radiusFn := fun n => n.r + 2, strength := 1, iterations := 3 }

/-- A concrete warm simulation state used for concrete evaluations. -/
def sampleSim : SimState :=
  { alpha := 1, alphaTarget := 3 / 10, velocityDecay := 1 / 10
    running := true, collide := sampleCollide }

/-- A concrete cooled-down simulation state (alpha below the restart
threshold) used for concrete evaluations. -/
def sampleSimCold : SimState := { sampleSim with alpha := 1 / 20 }

lemma countType_nil (ty : NodeType) : countType ty [] = 0 := rfl

lemma countType_cons (ty : NodeType) (n : Node) (l : List Node) :
    countType ty (n :: l) = countType ty l + (if n.type = ty then 1 else 0) := by
  simp [countType, List.countP_cons]

lemma countType_append (ty : NodeType) (l1 l2 : List Node) :
    countType ty (l1 ++ l2) = countType ty l1 + countType ty l2 := by
  simp [countType, List.countP_append]

lemma length_eq_sum_countType (l : List Node) :
    l.length = countType .title l + countType .album l + countType .artist l := by
  induction l with
  | nil => rfl
  | cons n l ih =>
    cases h : n.type <;>
      simp [countType_cons, h, ih, List.length_cons] <;> omega

lemma countType_groupAlbumNodesGo (ty : NodeType) (us : ℕ → ℚ) (g : Group) :
    ∀ (as : List Album) (k : ℕ),
      countType ty (groupAlbumNodesGo us g as k)
        = if ty = .album then as.length else 0 := by
  intro as
  induction as with
  | nil => intro k; simp [groupAlbumNodesGo, countType]
  | cons a as ih =>
    intro k
    have hty : (createAlbumNode a g (us k)).type = .album := rfl
    by_cases h : ty = .album
    · subst h
      simp [groupAlbumNodesGo, countType_cons, ih, hty]
    · have h2 : ¬NodeType.album = ty := fun he => h he.symm
      simp [groupAlbumNodesGo, countType_cons, ih, hty, h, h2]

lemma countType_groupAlbumNodes (ty : NodeType) (f : FilterType) (us : ℕ → ℚ)
    (g : Group) (k : ℕ) :
    countType ty (groupAlbumNodes f us g k)
      = if (f = .tous ∨ f = .album) ∧ ty = .album then g.albums.length else 0 := by
  unfold groupAlbumNodes
  split
  · rename_i hf
    rw [countType_groupAlbumNodesGo]
    by_cases hty : ty = .album <;> simp [hf, hty]
  · rename_i hf
    simp [countType, hf]

lemma createArtistNode_spec (g : Group) (u : ℚ) (h : g.albums ≠ []) :
    ∃ n, createArtistNode g u = some n ∧ n.type = .artist ∧ n.originalR = none ∧
      n.r = max SIMULATION_CONFIG.nodeSize.minArtist
        (SIMULATION_CONFIG.nodeSize.artist
          + (u - 1 / 2) * 2 * SIMULATION_CONFIG.nodeSize.maxDelta) := by
  rcases halb : g.albums with _ | ⟨a0, as⟩
  · exact absurd halb h
  · exact ⟨{ id := "artist-" ++ g.id
             src := a0.src
             alt := g.name ++ " artist photo"
             type := .artist
             groupName := some g.name
             groupId := some g.id
             r := max SIMULATION_CONFIG.nodeSize.minArtist
               (SIMULATION_CONFIG.nodeSize.artist
                 + (u - 1 / 2) * 2 * SIMULATION_CONFIG.nodeSize.maxDelta)
             group := g.id },
           by simp [createArtistNode, halb], rfl, rfl, rfl⟩

lemma groupNodes_spec (f : FilterType) (us : ℕ → ℚ) (g : Group) (k : ℕ) :
    ∃ ns kn, groupNodes f us g k = some (ns, kn) ∧
      countType .title ns = 0 ∧
      countType .album ns = (if f = .tous ∨ f = .album then g.albums.length else 0) ∧
      countType .artist ns
        = (if (f = .tous ∨ f = .artist) ∧ 0 < g.albums.length then 1 else 0) := by
  by_cases hc : (f = .tous ∨ f = .artist) ∧ 0 < g.albums.length
  · have hne : g.albums ≠ [] := by
      intro h0
      rw [h0] at hc
      simp at hc
    obtain ⟨n, hn, hty, -, -⟩ :=
      createArtistNode_spec g (us (k + (groupAlbumNodes f us g k).length)) hne
    refine ⟨groupAlbumNodes f us g k ++ [n],
      k + (groupAlbumNodes f us g k).length + 1, ?_, ?_, ?_, ?_⟩
    · simp only [groupNodes, if_pos hc, hn]
    · rw [countType_append, countType_groupAlbumNodes]
      simp [countType, hty]
    · rw [countType_append, countType_groupAlbumNodes]
      have : countType .album [n] = 0 := by simp [countType, hty]
      rw [this]
      split_ifs <;> simp_all
    · rw [countType_append, countType_groupAlbumNodes]
      have : countType .artist [n] = 1 := by simp [countType, hty]
      rw [this, if_pos hc]
      simp
  · refine ⟨groupAlbumNodes f us g k,
      k + (groupAlbumNodes f us g k).length, ?_, ?_, ?_, ?_⟩
    · simp only [groupNodes, if_neg hc]
    · rw [countType_groupAlbumNodes]; simp
    · rw [countType_groupAlbumNodes]; split_ifs <;> simp_all
    · rw [countType_groupAlbumNodes, if_neg hc]; simp

lemma buildDataGo_spec (f : FilterType) (us : ℕ → ℚ) :
    ∀ (gs : List Group) (k : ℕ), ∃ l, buildDataGo f us gs k = some l ∧
      countType .title l = 0 ∧
      countType .album l = albumCount f gs ∧
      countType .artist l = artistCount f gs := by
  intro gs
  induction gs with
  | nil =>
    intro k
    exact ⟨[], rfl, rfl, by simp [albumCount, countType],
      by simp [artistCount, countType]⟩
  | cons g gs ih =>
    intro k
    obtain ⟨ns, kn, hgn, ht, ha, hr⟩ := groupNodes_spec f us g k
    obtain ⟨l, hl, ht2, ha2, hr2⟩ := ih kn
    refine ⟨ns ++ l, ?_, ?_, ?_, ?_⟩
    · simp only [buildDataGo, hgn, hl]
      rfl
    · rw [countType_append, ht, ht2]
    · rw [countType_append, ha, ha2]
      unfold albumCount
      split_ifs <;> simp
    · rw [countType_append, hr, hr2]
      unfold artistCount
      by_cases hf : f = .tous ∨ f = .artist
      · by_cases hl0 : 0 < g.albums.length
        · simp only [hf, hl0, List.countP_cons, if_true, and_true, true_and,
            if_pos (Or.inl rfl)]
          simp [hl0]
          omega
        · simp [hf, hl0, List.countP_cons]
      · simp [hf]

lemma buildData_spec (f : FilterType) (us : ℕ → ℚ) (groups : List Group) :
    ∃ l, buildData f us groups = some l ∧
      countType .title l = 1 ∧
      countType .album l = albumCount f groups ∧
      countType .artist l = artistCount f groups ∧
      l.length = 1 + albumCount f groups + artistCount f groups := by
  obtain ⟨l, hl, ht, ha, hr⟩ := buildDataGo_spec f us groups 0
  have htitle : createTitleNode.type = .title := rfl
  refine ⟨createTitleNode :: l, ?_, ?_, ?_, ?_, ?_⟩
  · simp only [buildData, hl]
    rfl
  · rw [countType_cons, ht, if_pos htitle]
  · rw [countType_cons, ha]; simp [htitle]
  · rw [countType_cons, hr]; simp [htitle]
  · rw [List.length_cons, length_eq_sum_countType l, ht, ha, hr]
    omega

lemma mapSet_of_not_mem (m : List (String × Pt)) (key : String) (v : Pt)
    (h : m.any (fun p => p.1 = key) = false) :
    mapSet m key v = m ++ [(key, v)] := by
  simp only [mapSet, h]
  simp

lemma clusterList_length (cosF sinF : ℚ → ℚ) (pi : ℚ) (n : ℕ) (w h : ℚ) :
    ∀ (gs : List Group) (i : ℕ),
      (clusterList cosF sinF pi n w h gs i).length = gs.length := by
  intro gs
  induction gs with
  | nil => intro i; rfl
  | cons g gs ih => intro i; simp [clusterList, ih]

lemma clusterList_map_fst (cosF sinF : ℚ → ℚ) (pi : ℚ) (n : ℕ) (w h : ℚ) :
    ∀ (gs : List Group) (i : ℕ),
      (clusterList cosF sinF pi n w h gs i).map Prod.fst = gs.map Group.id := by
  intro gs
  induction gs with
  | nil => intro i; rfl
  | cons g gs ih => intro i; simp [clusterList, ih]

lemma createClustersGo_spec (cosF sinF : ℚ → ℚ) (pi : ℚ) (n : ℕ) (w h : ℚ) :
    ∀ (gs : List Group) (i : ℕ) (m : List (String × Pt)),
      (∀ g ∈ gs, m.any (fun p => p.1 = g.id) = false) →
      (gs.map Group.id).Nodup →
      createClustersGo cosF sinF pi n w h gs i m
        = m ++ clusterList cosF sinF pi n w h gs i := by
  intro gs
  induction gs with
  | nil => intro i m _ _; simp [createClustersGo, clusterList]
  | cons g gs ih =>
    intro i m hmem hnd
    have hg : m.any (fun p => p.1 = g.id) = false :=
      hmem g (List.mem_cons_self g gs)
    have hnd2 : (gs.map Group.id).Nodup := (List.nodup_cons.mp hnd).2
    have hghd : g.id ∉ gs.map Group.id := (List.nodup_cons.mp hnd).1
    have hmem2 : ∀ g2 ∈ gs,
        (m ++ [(g.id, clusterTarget cosF sinF pi n w h i)]).any
          (fun p => p.1 = g2.id) = false := by
      intro g2 hg2
      have hne : g.id ≠ g2.id := by
        intro he
        exact hghd (he ▸ List.mem_map_of_mem Group.id hg2)
      simp [List.any_append, hmem g2 (List.mem_cons_of_mem g hg2), hne]
    calc createClustersGo cosF sinF pi n w h (g :: gs) i m
        = createClustersGo cosF sinF pi n w h gs (i + 1)
            (mapSet m g.id (clusterTarget cosF sinF pi n w h i)) := rfl
      _ = (m ++ [(g.id, clusterTarget cosF sinF pi n w h i)])
            ++ clusterList cosF sinF pi n w h gs (i + 1) := by
            rw [mapSet_of_not_mem m g.id _ hg]
            exact ih (i + 1) _ hmem2 hnd2
      _ = m ++ clusterList cosF sinF pi n w h (g :: gs) i := by
            rw [List.append_assoc]
            rfl

/--
C1 counterexample: the claim asserts a collision strength strictly below
1.0, but the source configuration sets `forces.collide = 1` exactly, so the
claimed conjunction (iterations above one AND strength below one) is false
on `SIMULATION_CONFIG`.
-/
theorem C1_collide_counterexample :
    ¬ (1 < SIMULATION_CONFIG.performance.collisionIterations ∧
       SIMULATION_CONFIG.forces.collide < 1) := by
  intro hcl
  exact absurd hcl.2 (by norm_num [SIMULATION_CONFIG])

/--
C1 (amended): the collision force is configured with multiple relaxation
passes per tick (`iterations = collisionIterations = 3 > 1`) and with
strength `forces.collide`, which equals exactly 1.0 (not strictly below
1.0); both the simulation setup and every `updateCollisionForce` call
install these values.
-/
theorem C1_collide_config (cosF sinF : ℚ → ℚ) (pi : ℚ) (groups : List Group)
    (data : List Node) (sim : SimState) :
    ((initSimulation cosF sinF pi groups data).sim.collide.iterations
        = SIMULATION_CONFIG.performance.collisionIterations) ∧
    1 < (initSimulation cosF sinF pi groups data).sim.collide.iterations ∧
    ((initSimulation cosF sinF pi groups data).sim.collide.strength
        = SIMULATION_CONFIG.forces.collide) ∧
    (initSimulation cosF sinF pi groups data).sim.collide.strength = 1 ∧
    (updateCollisionForce sim).collide.strength = 1 ∧
    1 < (updateCollisionForce sim).collide.iterations := by
  refine ⟨rfl, ?_, rfl, rfl, rfl, ?_⟩
  · show (1 : ℕ) < 3
    decide
  · show (1 : ℕ) < 3
    decide

/--
C2: hovering a never-hovered non-title node and immediately un-hovering it
(no tween frames in between) records `originalR` as the pre-hover radius,
keeps the node radius unchanged through both handlers, targets the leave
animation at that same resting value, and a node whose `originalR` is
already (truthily) captured is never re-captured by later hovers.
-/
theorem C2_hover_roundtrip (d : Node) (_h1 : d.type ≠ .title)
    (h2 : d.originalR = none) (h3 : d.r ≠ 0) :
    ((handleNodeHover d).1.originalR = some d.r) ∧
    ((handleNodeHover d).1.r = d.r) ∧
    ((handleNodeLeave (handleNodeHover d).1).1.originalR = some d.r) ∧
    ((handleNodeLeave (handleNodeHover d).1).2.target = d.r) ∧
    (∀ e : Node, optTruthy e.originalR = true →
      (handleNodeHover e).1.originalR = e.originalR) := by
  have hcap : (handleNodeHover d).1 = { d with originalR := some d.r } := by
    simp [handleNodeHover, h2, optTruthy]
  refine ⟨by rw [hcap], by rw [hcap], by rw [hcap]; rfl, ?_, ?_⟩
  · rw [hcap]
    simp [handleNodeLeave, optTruthy, h3]
  · intro e he
    simp [handleNodeHover, he]

/-- C2 witness: the round-trip evaluated on a concrete never-hovered album
node of radius 37. -/
theorem C2_hover_roundtrip_witness :
    (sampleNode.type ≠ .title ∧ sampleNode.originalR = none ∧ sampleNode.r ≠ 0) ∧
    ((handleNodeHover sampleNode).1.originalR = some sampleNode.r) ∧
    ((handleNodeHover sampleNode).1.r = sampleNode.r) ∧
    ((handleNodeLeave (handleNodeHover sampleNode).1).1.originalR
        = some sampleNode.r) ∧
    ((handleNodeLeave (handleNodeHover sampleNode).1).2.target = sampleNode.r) ∧
    (∀ e : Node, optTruthy e.originalR = true →
      (handleNodeHover e).1.originalR = e.originalR) :=
  ⟨⟨by decide, by decide, by decide⟩,
   C2_hover_roundtrip sampleNode (by decide) (by decide) (by decide)⟩

/--
C3: every frame of a hover or leave radius tween (a) writes the interpolated
radius onto the node, (b) installs a collision force whose radius accessor,
applied to any node at force-application time, returns that node's current
radius plus the fixed padding, and (c) if alpha is below the restart
threshold 0.1 it resets alpha to 0.1 and restarts the stepper, so alpha is
at least 0.1 after every frame.
-/
theorem C3_tween_frame_invariants (start target t : ℚ) (d : Node) (sim : SimState) :
    ((radiusTweenFrame start target t (d, sim)).1.r = interpolate start target t) ∧
    (∀ n : Node, (radiusTweenFrame start target t (d, sim)).2.collide.radiusFn n
        = n.r + SIMULATION_CONFIG.nodeSize.holePadding) ∧
    (SIMULATION_CONFIG.performance.restartAlpha = 1 / 10) ∧
    (sim.alpha < 1 / 10 →
      (radiusTweenFrame start target t (d, sim)).2.alpha = 1 / 10 ∧
      (radiusTweenFrame start target t (d, sim)).2.running = true) ∧
    (1 / 10 ≤ (radiusTweenFrame start target t (d, sim)).2.alpha) := by
  have hra : SIMULATION_CONFIG.performance.restartAlpha = 1 / 10 := rfl
  have hcol : (radiusTweenFrame start target t (d, sim)).2.collide
      = { radiusFn := fun node => node.r + SIMULATION_CONFIG.nodeSize.holePadding
          strength := SIMULATION_CONFIG.forces.collide
          iterations := SIMULATION_CONFIG.performance.collisionIterations } := by
    simp only [radiusTweenFrame, restartSimulationIfNeeded]
    split <;> rfl
  refine ⟨rfl, fun n => by rw [hcol], hra, ?_, ?_⟩
  · intro hlt
    have hlt2 : (updateCollisionForce sim).alpha
        < SIMULATION_CONFIG.performance.restartAlpha := by
      rw [hra]
      exact hlt
    have halpha : (radiusTweenFrame start target t (d, sim)).2.alpha
        = SIMULATION_CONFIG.performance.restartAlpha := by
      show (restartSimulationIfNeeded (updateCollisionForce sim)).alpha = _
      unfold restartSimulationIfNeeded
      rw [if_pos hlt2]
    have hrun : (radiusTweenFrame start target t (d, sim)).2.running = true := by
      show (restartSimulationIfNeeded (updateCollisionForce sim)).running = true
      unfold restartSimulationIfNeeded
      rw [if_pos hlt2]
    exact ⟨by rw [halpha, hra], hrun⟩
  · by_cases hlt : (updateCollisionForce sim).alpha
        < SIMULATION_CONFIG.performance.restartAlpha
    · have halpha : (radiusTweenFrame start target t (d, sim)).2.alpha
          = SIMULATION_CONFIG.performance.restartAlpha := by
        show (restartSimulationIfNeeded (updateCollisionForce sim)).alpha = _
        unfold restartSimulationIfNeeded
        rw [if_pos hlt]
      rw [halpha, hra]
    · have halpha : (radiusTweenFrame start target t (d, sim)).2.alpha
          = (updateCollisionForce sim).alpha := by
        show (restartSimulationIfNeeded (updateCollisionForce sim)).alpha = _
        unfold restartSimulationIfNeeded
        rw [if_neg hlt]
      rw [halpha]
      rw [not_lt] at hlt
      calc (1 : ℚ) / 10 = SIMULATION_CONFIG.performance.restartAlpha := hra.symm
        _ ≤ _ := hlt

/-- C3 witness: one tween frame evaluated on a concrete node and a concrete
cooled-down simulation state with alpha 1/20 below the threshold. -/
theorem C3_tween_frame_invariants_witness :
    sampleSimCold.alpha < 1 / 10 ∧
    (((radiusTweenFrame 50 70 (1 / 2) (sampleNode, sampleSimCold)).1.r
        = interpolate 50 70 (1 / 2)) ∧
     (∀ n : Node,
        (radiusTweenFrame 50 70 (1 / 2) (sampleNode, sampleSimCold)).2.collide.radiusFn n
          = n.r + SIMULATION_CONFIG.nodeSize.holePadding) ∧
     (SIMULATION_CONFIG.performance.restartAlpha = 1 / 10) ∧
     (sampleSimCold.alpha < 1 / 10 →
       (radiusTweenFrame 50 70 (1 / 2) (sampleNode, sampleSimCold)).2.alpha = 1 / 10 ∧
       (radiusTweenFrame 50 70 (1 / 2) (sampleNode, sampleSimCold)).2.running = true) ∧
     (1 / 10 ≤ (radiusTweenFrame 50 70 (1 / 2) (sampleNode, sampleSimCold)).2.alpha)) :=
  ⟨by norm_num [sampleSimCold, sampleSim],
   C3_tween_frame_invariants 50 70 (1 / 2) sampleNode sampleSimCold⟩

/--
C4: for every random draw `u` in `[0, 1)`, a generated album node's radius
lies in `[minAlbum, baseAlbum + maxDelta]` and a generated artist node's
radius lies in `[minArtist, baseArtist + maxDelta]`.
-/
theorem C4_radius_bounds (a : Album) (g : Group) (u : ℚ)
    (_h0 : 0 ≤ u) (h1 : u < 1) :
    (SIMULATION_CONFIG.nodeSize.minAlbum ≤ (createAlbumNode a g u).r ∧
     (createAlbumNode a g u).r
        ≤ SIMULATION_CONFIG.nodeSize.album + SIMULATION_CONFIG.nodeSize.maxDelta) ∧
    (∀ d : Node, createArtistNode g u = some d →
      SIMULATION_CONFIG.nodeSize.minArtist ≤ d.r ∧
      d.r ≤ SIMULATION_CONFIG.nodeSize.artist + SIMULATION_CONFIG.nodeSize.maxDelta) := by
  constructor
  · constructor
    · exact le_max_left _ _
    · show max (20 : ℚ) (50 + (u - 1 / 2) * 2 * 20) ≤ 50 + 20
      apply max_le
      · norm_num
      · nlinarith
  · intro d hd
    have hne : g.albums ≠ [] := by
      intro h0'
      simp [createArtistNode, h0'] at hd
    obtain ⟨n, hn, -, -, hr⟩ := createArtistNode_spec g u hne
    rw [hn] at hd
    injection hd with he
    subst he
    rw [hr]
    constructor
    · exact le_max_left _ _
    · show max (25 : ℚ) (60 + (u - 1 / 2) * 2 * 20) ≤ 60 + 20
      apply max_le
      · norm_num
      · nlinarith

/-- C4 witness: bounds evaluated at the concrete draw `u = 0` (the extreme
negative delta) on a concrete album and group. -/
theorem C4_radius_bounds_witness :
    ((0 : ℚ) ≤ 0 ∧ (0 : ℚ) < 1) ∧
    ((SIMULATION_CONFIG.nodeSize.minAlbum
        ≤ (createAlbumNode sampleAlbum sampleGroup 0).r ∧
      (createAlbumNode sampleAlbum sampleGroup 0).r
        ≤ SIMULATION_CONFIG.nodeSize.album + SIMULATION_CONFIG.nodeSize.maxDelta) ∧
     (∀ d : Node, createArtistNode sampleGroup 0 = some d →
       SIMULATION_CONFIG.nodeSize.minArtist ≤ d.r ∧
       d.r ≤ SIMULATION_CONFIG.nodeSize.artist
          + SIMULATION_CONFIG.nodeSize.maxDelta)) :=
  ⟨⟨by norm_num, by norm_num⟩,
   C4_radius_bounds sampleAlbum sampleGroup 0 (by norm_num) (by norm_num)⟩

/--
C5: for every catalog, filter and random stream, node-set construction
succeeds (groups with zero albums raise no error) and yields exactly one
title node, `albumCount` album nodes (zero unless the filter is `tous` or
`album`), and `artistCount` artist nodes (zero unless the filter is `tous`
or `artist`; one per group with at least one album), with the total length
their sum; on the concrete scenario (group `A` with two albums, group `B`
with one) under the `tous` filter the node list has exactly 6 nodes.
-/
theorem C5_node_set_counts (f : FilterType) (us : ℕ → ℚ) (groups : List Group) :
    (∃ l, buildData f us groups = some l ∧
      countType .title l = 1 ∧
      countType .album l = albumCount f groups ∧
      countType .artist l = artistCount f groups ∧
      l.length = 1 + albumCount f groups + artistCount f groups) ∧
    (buildData .tous usHalf scenarioGroups).map List.length = some 6 :=
  ⟨buildData_spec f us groups, by rfl⟩

/--
C6: with distinct group ids, `createClusters` returns exactly one entry per
group, in group order, keyed by group id, and the entry of the group at
index `i` of `n` is the point at angle `(i / n) * 2π` on the circle of
radius `min(width, height) / 4` centered at `(width / 2, height / 2)`; the
result is a pure function of the group list (and the abstracted `cos`,
`sin`, `π`), so repeated computations agree.
-/
theorem C6_cluster_targets (cosF sinF : ℚ → ℚ) (pi w h : ℚ)
    (groups : List Group) (hnd : (groups.map Group.id).Nodup) :
    createClusters cosF sinF pi groups w h
        = clusterList cosF sinF pi groups.length w h groups 0 ∧
    (createClusters cosF sinF pi groups w h).length = groups.length ∧
    (createClusters cosF sinF pi groups w h).map Prod.fst
        = groups.map Group.id := by
  have he : createClusters cosF sinF pi groups w h
      = clusterList cosF sinF pi groups.length w h groups 0 := by
    unfold createClusters
    have hmain := createClustersGo_spec cosF sinF pi groups.length w h groups 0 []
      (fun g _ => rfl) hnd
    simpa using hmain
  exact ⟨he, by rw [he, clusterList_length], by rw [he, clusterList_map_fst]⟩

/-- C6 witness: the cluster characterization evaluated on the concrete
two-group scenario catalog with identity stand-ins for cosine and sine. -/
theorem C6_cluster_targets_witness :
    (scenarioGroups.map Group.id).Nodup ∧
    (createClusters (fun q => q) (fun q => q) 3 scenarioGroups 8 4
        = clusterList (fun q => q) (fun q => q) 3 scenarioGroups.length 8 4
            scenarioGroups 0 ∧
     (createClusters (fun q => q) (fun q => q) 3 scenarioGroups 8 4).length
        = scenarioGroups.length ∧
     (createClusters (fun q => q) (fun q => q) 3 scenarioGroups 8 4).map Prod.fst
        = scenarioGroups.map Group.id) :=
  ⟨by decide,
   C6_cluster_targets (fun q => q) (fun q => q) 3 8 4 scenarioGroups (by decide)⟩

/--
C7: the cluster targets installed at rebuild time are computed from the
unfiltered group list: for a fixed group list, the simulation setup produces
identical cluster mappings for any two filter values (and any two random
streams), so switching filters does not move surviving cluster anchors.
-/
theorem C7_clusters_filter_independent (cosF sinF : ℚ → ℚ) (pi : ℚ)
    (groups : List Group) (f1 f2 : FilterType) (us1 us2 : ℕ → ℚ) :
    ((buildData f1 us1 groups).map
        (fun d => (initSimulation cosF sinF pi groups d).clusters))
      = ((buildData f2 us2 groups).map
        (fun d => (initSimulation cosF sinF pi groups d).clusters)) ∧
    (∀ d1 d2 : List Node,
      (initSimulation cosF sinF pi groups d1).clusters
        = (initSimulation cosF sinF pi groups d2).clusters) := by
  constructor
  · obtain ⟨l1, hl1, -, -, -, -⟩ := buildData_spec f1 us1 groups
    obtain ⟨l2, hl2, -, -, -, -⟩ := buildData_spec f2 us2 groups
    rw [hl1, hl2]
    rfl
  · intro d1 d2
    rfl

/--
C8: the render-sync projection is stateless and idempotent: it ignores the
previous DOM attribute state, so running it twice in succession (or from any
two prior DOM states) on the same node states produces identical visual
output, and for each node the placement equals its position, the outer
circle radius equals its current radius, the image and clip region are
sized by `radius - clipPadding`, and the album hole is the fixed constant
`holePadding` independent of radius.
-/
theorem C8_render_sync_idempotent (dom dom2 : List Visual) (data : List Node) :
    updateVisualsOnTick (updateVisualsOnTick dom data) data
        = updateVisualsOnTick dom data ∧
    updateVisualsOnTick dom data = updateVisualsOnTick dom2 data ∧
    updateVisualsOnTick dom data = data.map projectNode ∧
    ∀ d : Node,
      (projectNode d).transform = (d.x, d.y) ∧
      (projectNode d).outerR = d.r ∧
      (projectNode d).clipR = d.r - SIMULATION_CONFIG.nodeSize.clipPadding ∧
      (d.type = .album →
        (projectNode d).holeR = some SIMULATION_CONFIG.nodeSize.holePadding) ∧
      (d.type ≠ .title →
        (projectNode d).img = some
          { x := -(d.r - SIMULATION_CONFIG.nodeSize.clipPadding)
            y := -(d.r - SIMULATION_CONFIG.nodeSize.clipPadding)
            w := (d.r - SIMULATION_CONFIG.nodeSize.clipPadding) * 2
            h := (d.r - SIMULATION_CONFIG.nodeSize.clipPadding) * 2 }) := by
  refine ⟨rfl, rfl, rfl, fun d => ⟨rfl, rfl, rfl, ?_, ?_⟩⟩
  · intro ht
    simp [projectNode, ht]
  · intro ht
    simp [projectNode, ht]

/-- C8 witness: the projection evaluated twice on a concrete one-node state,
with the album-specific conjuncts discharged on that node. -/
theorem C8_render_sync_idempotent_witness :
    (sampleNode.type = .album ∧ sampleNode.type ≠ .title) ∧
    updateVisualsOnTick (updateVisualsOnTick [] [sampleNode]) [sampleNode]
        = updateVisualsOnTick [] [sampleNode] ∧
    (projectNode sampleNode).holeR = some SIMULATION_CONFIG.nodeSize.holePadding :=
  ⟨⟨by decide, by decide⟩,
   (C8_render_sync_idempotent [] [] [sampleNode]).1,
   ((C8_render_sync_idempotent [] [] [sampleNode]).2.2.2 sampleNode).2.2.2.1
     (by decide)⟩

/--
C9: the entrance choreography returns the node datum unchanged (radius,
position and velocity included) and only schedules rendered-attribute
targets, while the collision force installed at setup reads every node's
full constructed radius plus padding from the first tick.
-/
theorem C9_entrance_pure_visual (d : Node) (i : ℕ) (cosF sinF : ℚ → ℚ)
    (pi : ℚ) (groups : List Group) (data : List Node) :
    ((animateNodeEntrance d i).1 = d) ∧
    ((animateNodeEntrance d i).1.r = d.r) ∧
    ((animateNodeEntrance d i).1.x = d.x) ∧
    ((animateNodeEntrance d i).1.y = d.y) ∧
    ((animateNodeEntrance d i).1.vx = d.vx) ∧
    ((animateNodeEntrance d i).1.vy = d.vy) ∧
    ((animateNodeEntrance d i).2.outerR = d.r) ∧
    ((animateNodeEntrance d i).2.delay = i * ENTRANCE_ANIMATION_DELAY) ∧
    (∀ n : Node, (initSimulation cosF sinF pi groups data).sim.collide.radiusFn n
        = n.r + SIMULATION_CONFIG.nodeSize.holePadding) :=
  ⟨rfl, rfl, rfl, rfl, rfl, rfl, rfl, rfl, fun _ => rfl⟩

/--
C10: a pointer-leave on a never-hovered node falls back to the kind's fixed
base constant (50 for album, 60 for artist) rather than the node's randomly
assigned constructed radius; consequently, for any album node whose random
delta is nonzero (`u ≠ 1/2`), finishing the leave tween leaves the radius at
50, different from the constructed resting radius.
-/
theorem C10_leave_without_hover (a : Album) (g : Group) (u : ℚ) (sim : SimState)
    (h0 : 0 ≤ u) (_h1 : u < 1) (hu : u ≠ 1 / 2) :
    ((handleNodeLeave (createAlbumNode a g u)).2.target
        = SIMULATION_CONFIG.nodeSize.album) ∧
    ((radiusTweenFrame (createAlbumNode a g u).r
        (handleNodeLeave (createAlbumNode a g u)).2.target 1
        (createAlbumNode a g u, sim)).1.r = SIMULATION_CONFIG.nodeSize.album) ∧
    ((radiusTweenFrame (createAlbumNode a g u).r
        (handleNodeLeave (createAlbumNode a g u)).2.target 1
        (createAlbumNode a g u, sim)).1.r ≠ (createAlbumNode a g u).r) ∧
    (∀ (g2 : Group) (u2 : ℚ) (d2 : Node), createArtistNode g2 u2 = some d2 →
      (handleNodeLeave d2).2.target = SIMULATION_CONFIG.nodeSize.artist) := by
  have htar : (handleNodeLeave (createAlbumNode a g u)).2.target
      = SIMULATION_CONFIG.nodeSize.album := rfl
  have hend : (radiusTweenFrame (createAlbumNode a g u).r
      (handleNodeLeave (createAlbumNode a g u)).2.target 1
      (createAlbumNode a g u, sim)).1.r = SIMULATION_CONFIG.nodeSize.album := by
    show interpolate (createAlbumNode a g u).r
      (handleNodeLeave (createAlbumNode a g u)).2.target 1
        = SIMULATION_CONFIG.nodeSize.album
    rw [htar]
    unfold interpolate
    ring
  have hrval : (createAlbumNode a g u).r
      = 50 + (u - 1 / 2) * 2 * 20 := by
    show max (20 : ℚ) (50 + (u - 1 / 2) * 2 * 20) = 50 + (u - 1 / 2) * 2 * 20
    apply max_eq_right
    nlinarith
  have hne : (createAlbumNode a g u).r ≠ SIMULATION_CONFIG.nodeSize.album := by
    rw [hrval]
    show 50 + (u - 1 / 2) * 2 * 20 ≠ 50
    intro hcontr
    apply hu
    linarith
  refine ⟨htar, hend, ?_, ?_⟩
  · rw [hend]
    exact fun hcontr => hne hcontr.symm
  · intro g2 u2 d2 hret
    rcases halb : g2.albums with _ | ⟨a0, as⟩
    · simp [createArtistNode, halb] at hret
    · simp only [createArtistNode, halb, Option.some.injEq] at hret
      subst hret
      rfl

/-- C10 witness: the fallback evaluated at the concrete draw `u = 3/4`
(nonzero delta: constructed radius 60, leave target 50). -/
theorem C10_leave_without_hover_witness :
    ((0 : ℚ) ≤ 3 / 4 ∧ (3 : ℚ) / 4 < 1 ∧ (3 : ℚ) / 4 ≠ 1 / 2) ∧
    ((handleNodeLeave (createAlbumNode sampleAlbum sampleGroup (3 / 4))).2.target
        = SIMULATION_CONFIG.nodeSize.album) ∧
    ((radiusTweenFrame (createAlbumNode sampleAlbum sampleGroup (3 / 4)).r
        (handleNodeLeave (createAlbumNode sampleAlbum sampleGroup (3 / 4))).2.target 1
        (createAlbumNode sampleAlbum sampleGroup (3 / 4), sampleSim)).1.r
        = SIMULATION_CONFIG.nodeSize.album) ∧
    ((radiusTweenFrame (createAlbumNode sampleAlbum sampleGroup (3 / 4)).r
        (handleNodeLeave (createAlbumNode sampleAlbum sampleGroup (3 / 4))).2.target 1
        (createAlbumNode sampleAlbum sampleGroup (3 / 4), sampleSim)).1.r
        ≠ (createAlbumNode sampleAlbum sampleGroup (3 / 4)).r) ∧
    (∀ (g2 : Group) (u2 : ℚ) (d2 : Node), createArtistNode g2 u2 = some d2 →
      (handleNodeLeave d2).2.target = SIMULATION_CONFIG.nodeSize.artist) :=
  ⟨⟨by norm_num, by norm_num, by norm_num⟩,
   C10_leave_without_hover sampleAlbum sampleGroup (3 / 4) sampleSim
     (by norm_num) (by norm_num) (by norm_num)⟩

end Echos
